import Mathlib

/-!  Shallow embedding of the Lex Sentinel evidence-certification front end
(src/App.tsx, src/metadataService.ts, and the MetadataViewer component),
together with proofs about its workflow state machine, metadata extraction
and attribute classification.  Asynchronous effects (hashing, PDF parsing
and stamping, wallet calls) are modelled as explicit oracle arguments
carrying the outcome of the awaited call; DOM rendering and the purely
cosmetic timing delays are dropped.  Machine integers (file sizes, epoch
milliseconds) are modelled as Nat, byte buffers as List Nat, and the
JavaScript Record of string attributes as an insertion-ordered
association list (all keys written by the source are distinct literals). -/

namespace LexSentinel

/-- Log severity channel of the status terminal (the type union in App.tsx). -/
inductive LogType where
  | info | success | warning | error
  deriving DecidableEq, Repr

/-- Workflow stages of the session (AppStep, used throughout App.tsx;
the enum declaration itself lives in types.ts which is not among the
sources, but its five members and their linear order are fixed both by
every use site in App.tsx and by the spec). -/
inductive AppStep where
  | IDLE | ANALYZING | REVIEW | PROCESSING | CERTIFIED
  deriving DecidableEq, Repr

/-- The browser File descriptor fields the code reads: name, size (bytes),
declared MIME type, last-modified epoch milliseconds. -/
structure FileDesc where
  name : String
  size : Nat
  type : String
  lastModified : Nat
  deriving DecidableEq, Repr

/-- Result of a successful PDFDocument.load together with its getters:
optional string fields, optional dates (epoch ms) and the page count
(pdf-lib's getPageCount always returns a number). -/
structure PdfInfo where
  title : Option String
  author : Option String
  subject : Option String
  creator : Option String
  producer : Option String
  creationDate : Option Nat
  modDate : Option Nat
  pageCount : Nat
  deriving DecidableEq, Repr

/-- Modelled from the spec: cryptoService.calculateHashes is not among the
sources; per the spec it returns the two digests (a 256-bit and a 512-bit
family, rendered as lowercase fixed-width hex) plus the file's array
buffer, which App.tsx destructures as sha256, sha512, arrayBuffer. -/
structure HashOutput where
  sha256 : String
  sha512 : String
  arrayBuffer : List Nat
  deriving DecidableEq, Repr

/-- Web3ErrorDetail: title, description, optional suggested remedy. -/
structure ErrorDetail where
  title : String
  description : String
  solution : Option String
  deriving DecidableEq, Repr

/-- The shape of a caught JavaScript error as App.tsx inspects it:
optional code, optional info, message (empty string models a missing or
falsy message). -/
structure JsError where
  code : Option Nat
  info : Option String
  message : String
  deriving DecidableEq, Repr

/-- WalletState from types.ts as initialised and written in App.tsx. -/
structure WalletState where
  address : Option String
  isConnected : Bool
  chainId : Option Nat
  deriving DecidableEq, Repr

/-- ForensicData assembled in processFile (App.tsx lines 139-149). -/
structure ForensicData where
  fileName : String
  fileSize : Nat
  fileType : String
  lastModified : Nat
  hashSHA256 : String
  hashSHA512 : String
  timestamp : String
  originalBuffer : List Nat
  metadata : List (String × String)
  deriving DecidableEq, Repr

/-- The reportType union in App.tsx. -/
inductive ReportType where
  | JUDICIAL | SETTLEMENT
  deriving DecidableEq, Repr

/-- The React state of the App component: one field per useState hook
(the fileInputRef and the render-only values are omitted).  An object URL
is modelled by the byte buffer of the blob it refers to. -/
structure AppState where
  step : AppStep
  fileData : Option ForensicData
  wallet : WalletState
  walletSigner : Option Nat
  logs : List (String × LogType)
  txHash : Option String
  certifiedPdfUrl : Option (List Nat)
  isBiometricScanning : Bool
  showMetadata : Bool
  showQRModal : Bool
  showReportConfig : Bool
  reportType : ReportType
  errorDetails : Option ErrorDetail
  isDarkMode : Bool
  deriving DecidableEq, Repr

/-- Abstracts the JavaScript Date toUTCString rendering of an epoch value
in milliseconds; the program only passes these strings through, so only
injectivity in the epoch value matters, never the exact text. -/
def toUTCString (ms : Nat) : String := "UTC(" ++ toString ms ++ ")"

/-- Two-digit rendering of a fraction part. -/
def pad2 (n : Nat) : String := if n < 10 then "0" ++ toString n else toString n

/-- Models the JavaScript rendering (size / 1024).toFixed(2) with
integer rounding to hundredths. -/
def formatKB (size : Nat) : String :=
  let h := (size * 100 + 512) / 1024
  toString (h / 100) ++ "." ++ pad2 (h % 100)

/-- Models the JavaScript rendering (size / (1024 * 1024)).toFixed(2). -/
def formatMB (size : Nat) : String :=
  let h := (size * 100 + 524288) / 1048576
  toString (h / 100) ++ "." ++ pad2 (h % 100)

/-- The JavaScript String startsWith test, computed structurally over the
character lists so that it evaluates by kernel reduction. -/
def jsStartsWith (s p : String) : Bool := p.toList.isPrefixOf s.toList

/-- The system-derived attributes extractMetadata always records first
(metadataService.ts lines 12-19): file name, size in KB, MIME type with
the octet-stream fallback for a falsy type, and the last-modified
timestamp in both rendered and raw numeric form. -/
def systemAttributes (file : FileDesc) : List (String × String) :=
  [("File Name", file.name),
   ("File Size", formatKB file.size ++ " KB"),
   ("MIME Type", if file.type = "" then "application/octet-stream" else file.type),
   ("Last Modified", toUTCString file.lastModified),
   ("Timestamp (Unix)", toString file.lastModified)]

/-- JavaScript truthiness of a string-or-undefined value: keeps the value
exactly when it is present and non-empty. -/
def truthy : Option String → Option String
  | none => none
  | some t => if t = "" then none else some t

/-- One conditional attribute entry: emitted iff the getter value is truthy
(the pattern if (x) metadata[k] = x of metadataService.ts). -/
def optEntry (k : String) (o : Option String) : List (String × String) :=
  match truthy o with
  | some v => [(k, v)]
  | none => []

/-- One conditional date attribute entry: a Date object is truthy whenever
present, and is rendered with toUTCString. -/
def dateEntry (k : String) (o : Option Nat) : List (String × String) :=
  match o with
  | some d => [(k, toUTCString d)]
  | none => []

/-- The format-specific attributes recorded after a successful PDF parse
(metadataService.ts lines 27-43), in source order; the page count is
recorded unconditionally. -/
def pdfFields (d : PdfInfo) : List (String × String) :=
  optEntry "PDF Title" d.title ++
  (optEntry "PDF Author" d.author ++
  (optEntry "PDF Subject" d.subject ++
  (optEntry "PDF Creator tool" d.creator ++
  (optEntry "PDF Producer" d.producer ++
  (dateEntry "PDF Creation Date" d.creationDate ++
  (dateEntry "PDF Mod Date" d.modDate ++
  [("Page Count", toString d.pageCount)]))))))

/-- extractMetadata (metadataService.ts): always the system attributes;
for a declared PDF type the deep-inspection result — either the parsed
fields or, when PDFDocument.load failed (the catch branch), the single
diagnostic attribute; a coarse attribute for image types.  The awaited,
fallible PDFDocument.load is the pdfParse oracle; everything else in the
function is infallible, so the Lean function is total: the extractor
never propagates a failure to its caller. -/
def extractMetadata (file : FileDesc) (pdfParse : Except Unit PdfInfo) :
    List (String × String) :=
  let metadata := systemAttributes file
  let metadata :=
    if file.type = "application/pdf" then
      match pdfParse with
      | Except.ok d => metadata ++ pdfFields d
      | Except.error _ => metadata ++ [("PDF Analysis", "Encrypted or Corrupted Structure")]
    else metadata
  if jsStartsWith file.type "image/" then
    metadata ++ [("Image Analysis", "Bitmap Data Present")]
  else metadata

/-- The fixed sensitive-key taxonomy of the MetadataViewer component. -/
def SENSITIVE_KEYS : List String :=
  ["PDF Author", "PDF Creator tool", "PDF Producer",
   "Author", "Creator", "Producer", "Last Modified By"]

/-- The Sensitive partition computed by MetadataViewer: entries whose key
is a member of SENSITIVE_KEYS. -/
def sensitiveData (metadata : List (String × String)) : List (String × String) :=
  metadata.filter (fun kv => SENSITIVE_KEYS.contains kv.1)

/-- The General partition computed by MetadataViewer: entries whose key is
not a member of SENSITIVE_KEYS. -/
def generalData (metadata : List (String × String)) : List (String × String) :=
  metadata.filter (fun kv => !SENSITIVE_KEYS.contains kv.1)

/-- The 10 KB plain-text file of the spec's first scenario. -/
def txtFile : FileDesc :=
  { name := "evidence.txt", size := 10240, type := "text/plain",
    lastModified := 1700000000000 }

/-- addLog: appends one entry to the logs (the Date.now id is a purely
cosmetic nondeterministic field and is dropped). -/
def addLog (s : AppState) (text : String) (ty : LogType) : AppState :=
  { s with logs := s.logs ++ [(text, ty)] }

/-- The test App.tsx applies to a caught error to decide whether it is
wallet-shaped: a code, an info, or a message mentioning MetaMask or
wallet (message occurrence via splitOn). -/
def errIsWeb3 (e : JsError) : Bool :=
  e.code.isSome || e.info.isSome ||
    ((e.message.splitOn "MetaMask").length > 1 || (e.message.splitOn "wallet").length > 1)

/-- Modelled from the spec: web3Service.resolveWeb3Error is not among the
sources; per the spec it categorises a wallet failure into a structured
detail (kind, description, remedy).  No claim depends on its text. -/
def resolveWeb3Error (e : JsError) : ErrorDetail :=
  { title := "Web3 Operation Failed", description := e.message,
    solution := some "Check the wallet connection and retry." }

/-- handleError (App.tsx lines 56-72): builds the structured detail —
wallet-shaped errors via resolveWeb3Error, anything else via the generic
fallback with the message-or-default description — stores it in
errorDetails and appends an error log line. -/
def handleError (s : AppState) (e : JsError) : AppState :=
  let details :=
    if errIsWeb3 e then resolveWeb3Error e
    else
      { title := "Operation Failed",
        description :=
          if e.message = "" then "An unexpected system error occurred." else e.message,
        solution := some "Please check your file and try again." }
  let s := { s with errorDetails := some details }
  addLog s (details.title ++ ": " ++ details.description) LogType.error

/-- The 50 MB capacity limit of processFile: MAX_SIZE_MB * 1024 * 1024. -/
def MAX_SIZE_BYTES : Nat := 50 * 1024 * 1024

/-- The capacity-error detail processFile reports for an oversized file. -/
def capacityError (file : FileDesc) : ErrorDetail :=
  { title := "Storage Capacity Exceeded",
    description := "The file \"" ++ file.name ++ "\" (" ++ formatMB file.size ++
      " MB) exceeds the 50MB safety limit.",
    solution := some "Please compress the file or split it into smaller evidence packets." }

/-- The ForensicData literal assembled in processFile (App.tsx 139-149). -/
def mkForensicData (file : FileDesc) (h : HashOutput)
    (md : List (String × String)) (nowUTC : String) : ForensicData :=
  { fileName := file.name, fileSize := file.size, fileType := file.type,
    lastModified := file.lastModified, hashSHA256 := h.sha256,
    hashSHA512 := h.sha512, timestamp := nowUTC,
    originalBuffer := h.arrayBuffer, metadata := md }

/-- processFile (App.tsx lines 93-160).  The awaited calculateHashes is
the hashR oracle (its failure is the only throw site reaching the catch,
since extractMetadata is total); the current UTC clock reading is the
nowUTC oracle.  The oversized branch returns before any hashing, state
transition or log clearing; the catch branch reports the error and
returns the step to IDLE without touching the (possibly stale) record. -/
def processFile (s : AppState) (file : FileDesc)
    (hashR : Except JsError HashOutput) (pdfParse : Except Unit PdfInfo)
    (nowUTC : String) : AppState :=
  let s := { s with errorDetails := none }
  if file.size > MAX_SIZE_BYTES then
    { s with errorDetails := some (capacityError file) }
  else
    let s := { s with certifiedPdfUrl := none, txHash := none, logs := [] }
    let s := { s with step := AppStep.ANALYZING }
    let s := addLog s ("Ingesting Evidence: " ++ file.name ++ " [" ++
      formatKB file.size ++ " KB]") LogType.info
    let s := addLog s "Mounting Virtual File System..." LogType.info
    let s := addLog s "Starting Client-Side Cryptographic Hashing..." LogType.warning
    match hashR with
    | Except.error e =>
      let s := handleError s e
      { s with step := AppStep.IDLE }
    | Except.ok h =>
      let s := addLog s "Extracting File Metadata..." LogType.info
      let md := extractMetadata file pdfParse
      let s := addLog s "Running Entropy Analysis (Shannon Algorithm)..." LogType.info
      let s := addLog s "Scanning for Steganographic Injections..." LogType.info
      let data := mkForensicData file h md nowUTC
      let s := { s with fileData := some data }
      let s := addLog s ("SHA-256: " ++ h.sha256.take 16 ++ "...") LogType.success
      let s := addLog s ("SHA-512: " ++ h.sha512.take 16 ++ "...") LogType.success
      let s := addLog s "Integrity Check Passed. No Anomalies Detected." LogType.success
      { s with step := AppStep.REVIEW }

/-- handleCertification (App.tsx lines 179-217).  The awaited stampPdf of
the missing pdfService is the stampR oracle, consulted only on the PDF
branch; the non-PDF branch copies the original buffer byte for byte
(new Uint8Array over the same bytes).  The biometric overlay toggles on
and back off across the simulated delay; the object URL stores the blob
bytes.  On a stamping failure the error is reported and the step falls
back to REVIEW; the record is never written. -/
def handleCertification (s : AppState)
    (stampR : Except JsError (List Nat)) : AppState :=
  match s.fileData with
  | none => s
  | some fd =>
    let s := { s with errorDetails := none }
    let s := { s with isBiometricScanning := true }
    let s := addLog s "Requesting Biometric Authorization..." LogType.warning
    let s := { s with isBiometricScanning := false }
    let s := { s with step := AppStep.PROCESSING }
    let s := addLog s "Identity Confirmed. Access Granted." LogType.success
    let s := addLog s "Initializing Digital Stamping Engine..." LogType.info
    if fd.fileType = "application/pdf" then
      let s := addLog s "Injecting Visual Watermarks & Metadata..." LogType.info
      match stampR with
      | Except.ok bytes =>
        let s := { s with certifiedPdfUrl := some bytes }
        let s := addLog s "Digital Seal Applied Successfully." LogType.success
        { s with step := AppStep.CERTIFIED }
      | Except.error e =>
        let s := handleError s e
        { s with step := AppStep.REVIEW }
    else
      let s := addLog s "Non-PDF detected. Generating standard forensic wrapper..."
        LogType.warning
      let s := { s with certifiedPdfUrl := some fd.originalBuffer }
      let s := addLog s "Digital Seal Applied Successfully." LogType.success
      { s with step := AppStep.CERTIFIED }

/-- handleWalletConnect (App.tsx lines 74-91); the awaited connectWallet
is the oracle r carrying address, chain id and an opaque signer handle. -/
def handleWalletConnect (s : AppState)
    (r : Except JsError (String × Nat × Nat)) : AppState :=
  let s := { s with errorDetails := none }
  let s := addLog s "Initializing Web3 handshake protocol..." LogType.info
  match r with
  | Except.ok (addr, chainId, signer) =>
    let s := { s with
      wallet := { address := some addr, isConnected := true, chainId := some chainId },
      walletSigner := some signer }
    let s := addLog s ("Wallet Identity Verified: " ++ addr) LogType.success
    addLog s ("Network Detected: Chain ID " ++ toString chainId) LogType.info
  | Except.error e =>
    let s := handleError s e
    { s with
      wallet := { address := none, isConnected := false, chainId := none },
      walletSigner := none }

/-- The authentication-required detail of handleMinting. -/
def authRequired : ErrorDetail :=
  { title := "Authentication Required",
    description := "A connected Web3 wallet is required to sign the blockchain transaction.",
    solution := some "Click the Connect Wallet button in the top right corner." }

/-- handleMinting (App.tsx lines 219-247); the awaited connectWallet and
mintEvidenceNFT results are the connectR and mintR oracles. -/
def handleMinting (s : AppState)
    (connectR : Except JsError (String × Nat × Nat))
    (mintR : Except JsError String) : AppState :=
  let s := { s with errorDetails := none }
  if !s.wallet.isConnected || s.walletSigner.isNone then
    let s := { s with errorDetails := some authRequired }
    handleWalletConnect s connectR
  else
    match s.fileData with
    | none => s
    | some _ =>
      let s := addLog s "Constructing Blockchain Transaction..." LogType.info
      let s := addLog s "Requesting User Signature..." LogType.warning
      match mintR with
      | Except.ok tx =>
        let s := { s with txHash := some tx }
        let s := addLog s "Transaction Broadcasted to Network." LogType.success
        let s := addLog s ("Evidence Immutable ID: " ++ tx.take 20 ++ "...") LogType.success
        addLog s "PROOF OF EXISTENCE CONFIRMED." LogType.success
      | Except.error e => handleError s e

/-- downloadAuditReport (App.tsx lines 249-266); the awaited
generateAuditReport call is the oracle r; the DOM download is dropped. -/
def downloadAuditReport (s : AppState)
    (r : Except JsError (List Nat)) : AppState :=
  match s.fileData with
  | none => s
  | some _ =>
    let s := addLog s "Generating Forensic Audit Report..." LogType.info
    match r with
    | Except.ok _ => addLog s "Report Downloaded." LogType.success
    | Except.error e => handleError s e

/-- downloadWhitePaper (App.tsx lines 268-285). -/
def downloadWhitePaper (s : AppState)
    (r : Except JsError (List Nat)) : AppState :=
  match s.fileData with
  | none => s
  | some _ =>
    let s := addLog s "Compiling Technical White Paper..." LogType.info
    match r with
    | Except.ok _ => addLog s "White Paper Generated." LogType.success
    | Except.error e => handleError s e

/-- openReportConfig (App.tsx lines 287-290). -/
def openReportConfig (s : AppState) (ty : ReportType) : AppState :=
  { s with reportType := ty, showReportConfig := true }

/-- handleGenerateSpecializedReport (App.tsx lines 292-322); the report
generator call (judicial or settlement, per the current reportType) is
the oracle r. -/
def handleGenerateSpecializedReport (s : AppState)
    (r : Except JsError (List Nat)) : AppState :=
  let s := { s with showReportConfig := false }
  match s.fileData with
  | none => s
  | some _ =>
    let title :=
      if s.reportType = ReportType.JUDICIAL then "Judicial Peritaje" else "Settlement Agreement"
    let s := addLog s ("Generating Specialized Report: " ++ title ++ "...") LogType.info
    match r with
    | Except.ok _ => addLog s (title ++ " Generated Successfully.") LogType.success
    | Except.error e => handleError s e

/-- reset (App.tsx lines 324-333): returns the step to IDLE and clears the
record, logs, anchor transaction, certified-artifact URL, error modal and
the metadata/QR modal flags; nothing else is written. -/
def reset (s : AppState) : AppState :=
  { s with
    step := AppStep.IDLE,
    fileData := none,
    logs := [],
    txHash := none,
    certifiedPdfUrl := none,
    errorDetails := none,
    showMetadata := false,
    showQRModal := false }

/-- The initial React state of the App component (the useState defaults). -/
def initState : AppState :=
  { step := AppStep.IDLE, fileData := none,
    wallet := { address := none, isConnected := false, chainId := none },
    walletSigner := none, logs := [], txHash := none, certifiedPdfUrl := none,
    isBiometricScanning := false, showMetadata := false, showQRModal := false,
    showReportConfig := false, reportType := ReportType.JUDICIAL,
    errorDetails := none, isDarkMode := true }

/-- One externally triggered operation on the session, carrying the
oracle outcomes of the awaited calls it performs. -/
inductive Event where
  | upload (file : FileDesc) (hashR : Except JsError HashOutput)
      (pdfParse : Except Unit PdfInfo) (nowUTC : String)
  | certify (stampR : Except JsError (List Nat))
  | mint (connectR : Except JsError (String × Nat × Nat)) (mintR : Except JsError String)
  | connect (r : Except JsError (String × Nat × Nat))
  | doReset
  | setMetadataModal (b : Bool)
  | setQRModal (b : Bool)
  | openReport (ty : ReportType)
  | submitReport (r : Except JsError (List Nat))
  | auditReport (r : Except JsError (List Nat))
  | whitePaper (r : Except JsError (List Nat))

/-- The session step function: each handler guarded exactly as the App
render gates it — the upload zone renders only in IDLE; the sealing
button renders while no certified URL exists and is disabled unless the
step is REVIEW; the mint button is disabled unless the step is CERTIFIED
with no transaction yet; the stage-3 block (reports, downloads, reset)
renders only when a transaction hash exists outside IDLE; the wallet
connect button and the modal toggles are always available. -/
def dispatch (s : AppState) : Event → AppState
  | Event.upload file hashR pdfParse nowUTC =>
    if s.step = AppStep.IDLE then processFile s file hashR pdfParse nowUTC else s
  | Event.certify stampR =>
    if s.step = AppStep.REVIEW ∧ s.certifiedPdfUrl = none then
      handleCertification s stampR
    else s
  | Event.mint connectR mintR =>
    if s.step = AppStep.CERTIFIED ∧ s.txHash = none then
      handleMinting s connectR mintR
    else s
  | Event.connect r => handleWalletConnect s r
  | Event.doReset =>
    if s.step ≠ AppStep.IDLE ∧ s.txHash ≠ none then reset s else s
  | Event.setMetadataModal b => { s with showMetadata := b }
  | Event.setQRModal b => { s with showQRModal := b }
  | Event.openReport ty =>
    if s.step ≠ AppStep.IDLE ∧ s.txHash ≠ none then openReportConfig s ty else s
  | Event.submitReport r =>
    if s.showReportConfig then handleGenerateSpecializedReport s r else s
  | Event.auditReport r =>
    if s.step ≠ AppStep.IDLE ∧ s.txHash ≠ none then downloadAuditReport s r else s
  | Event.whitePaper r =>
    if s.step ≠ AppStep.IDLE ∧ s.txHash ≠ none then downloadWhitePaper s r else s

/-- Runs a list of session events from a state. -/
def runEvents (s : AppState) : List Event → AppState
  | [] => s
  | e :: es => runEvents (dispatch s e) es

/-- A fixed-width lowercase hexadecimal digest string. -/
def hexDigestB (s : String) (n : Nat) : Bool :=
  (s.length == n) && s.toList.all (fun c => "0123456789abcdef".toList.contains c)

/-- The hash-engine output contract.  Modelled from the spec:
cryptoService.calculateHashes is not among the sources; the spec fixes
its output as a 256-bit and a 512-bit digest rendered as fixed-width
lowercase hex, i.e. 64 and 128 hex characters. -/
def hashOutputOK (h : HashOutput) : Bool :=
  hexDigestB h.sha256 64 && hexDigestB h.sha512 128

/-- Well-formedness of an event: any hashing success it carries satisfies
the hash-engine output contract. -/
def eventOK : Event → Prop
  | Event.upload _ (Except.ok h) _ _ => hashOutputOK h = true
  | _ => True

/-- The record invariant: the session's forensic record is absent or
carries both digests, each a well-formed hex digest of its algorithm's
width. -/
def recordOK (s : AppState) : Prop :=
  ∀ fd, s.fileData = some fd →
    hexDigestB fd.hashSHA256 64 = true ∧ hexDigestB fd.hashSHA512 128 = true

@[simp]
theorem fileData_addLog (s : AppState) (t : String) (ty : LogType) :
    (addLog s t ty).fileData = s.fileData := rfl

@[simp]
theorem step_addLog (s : AppState) (t : String) (ty : LogType) :
    (addLog s t ty).step = s.step := rfl

@[simp]
theorem errorDetails_addLog (s : AppState) (t : String) (ty : LogType) :
    (addLog s t ty).errorDetails = s.errorDetails := rfl

@[simp]
theorem certifiedPdfUrl_addLog (s : AppState) (t : String) (ty : LogType) :
    (addLog s t ty).certifiedPdfUrl = s.certifiedPdfUrl := rfl

@[simp]
theorem fileData_handleError (s : AppState) (e : JsError) :
    (handleError s e).fileData = s.fileData := rfl

@[simp]
theorem step_handleError (s : AppState) (e : JsError) :
    (handleError s e).step = s.step := rfl

@[simp]
theorem certifiedPdfUrl_handleError (s : AppState) (e : JsError) :
    (handleError s e).certifiedPdfUrl = s.certifiedPdfUrl := rfl

@[simp]
theorem errorDetails_handleError_isSome (s : AppState) (e : JsError) :
    (handleError s e).errorDetails.isSome = true := rfl

/-- Claim C10: reset, applied to any session state, returns the step to
Idle and clears the forensic record, the certified-artifact reference,
the anchor transaction reference, the logs, the error modal and the
metadata/QR modal flags, while the wallet connection state (address,
connected flag, chain id) and the signer survive unchanged. -/
theorem reset_clears_session_preserves_wallet (s : AppState) :
    (reset s).step = AppStep.IDLE ∧
    (reset s).fileData = none ∧
    (reset s).certifiedPdfUrl = none ∧
    (reset s).txHash = none ∧
    (reset s).logs = [] ∧
    (reset s).errorDetails = none ∧
    (reset s).showMetadata = false ∧
    (reset s).showQRModal = false ∧
    (reset s).wallet = s.wallet ∧
    (reset s).walletSigner = s.walletSigner :=
  ⟨rfl, rfl, rfl, rfl, rfl, rfl, rfl, rfl, rfl, rfl⟩

/-- Claim C1: invoking the sealing operation in any workflow state other
than REVIEW is rejected by the gate (the sealing entry point is disabled
outside REVIEW) with no change whatsoever to the session state; in
particular from IDLE the step stays IDLE and no sealing work happens.
Additionally, the handler's own guard makes the call a no-op whenever no
forensic record exists. -/
theorem seal_rejected_outside_review (s : AppState)
    (stampR : Except JsError (List Nat)) (h : s.step ≠ AppStep.REVIEW) :
    dispatch s (Event.certify stampR) = s ∧
    (s.step = AppStep.IDLE → (dispatch s (Event.certify stampR)).step = AppStep.IDLE) ∧
    (s.fileData = none → handleCertification s stampR = s) := by
  have hg : ¬(s.step = AppStep.REVIEW ∧ s.certifiedPdfUrl = none) := fun hc => h hc.1
  refine ⟨?_, ?_, ?_⟩
  · simp [dispatch, hg]
  · intro hi
    simp [dispatch, hg, hi]
  · intro hf
    simp [handleCertification, hf]

theorem seal_rejected_outside_review_witness :
    dispatch initState (Event.certify (Except.ok [])) = initState ∧
    (initState.step = AppStep.IDLE →
      (dispatch initState (Event.certify (Except.ok []))).step = AppStep.IDLE) ∧
    (initState.fileData = none → handleCertification initState (Except.ok []) = initState) :=
  seal_rejected_outside_review initState (Except.ok []) (by decide)

/-- Claim C5: a submitted file larger than the 50 MiB limit is rejected
before any hashing or extraction (the result does not depend on the
hashing or parsing outcomes), the capacity error is reported, and the
whole session state is otherwise unchanged — in particular the step does
not transition. -/
theorem oversize_rejected_before_processing (s : AppState) (file : FileDesc)
    (hashR : Except JsError HashOutput) (pdfParse : Except Unit PdfInfo)
    (nowUTC : String) (h : file.size > MAX_SIZE_BYTES) :
    processFile s file hashR pdfParse nowUTC =
      { s with errorDetails := some (capacityError file) } ∧
    (processFile s file hashR pdfParse nowUTC).step = s.step ∧
    (processFile s file hashR pdfParse nowUTC).fileData = s.fileData := by
  have h1 : processFile s file hashR pdfParse nowUTC =
      { s with errorDetails := some (capacityError file) } := by
    simp [processFile, h]
  exact ⟨h1, by rw [h1], by rw [h1]⟩

/-- An oversized input: one byte beyond the 50 MiB limit. -/
def bigFile : FileDesc :=
  { name := "dump.bin", size := 52428801, type := "application/octet-stream",
    lastModified := 0 }

/-- A concrete generic (non-wallet) error. -/
def e0 : JsError := { code := none, info := none, message := "boom" }

theorem oversize_rejected_before_processing_witness :
    processFile initState bigFile (Except.error e0) (Except.error ()) "now" =
      { initState with errorDetails := some (capacityError bigFile) } ∧
    (processFile initState bigFile (Except.error e0) (Except.error ()) "now").step =
      initState.step ∧
    (processFile initState bigFile (Except.error e0) (Except.error ()) "now").fileData =
      initState.fileData :=
  oversize_rejected_before_processing initState bigFile (Except.error e0)
    (Except.error ()) "now" (by decide)

/-- Claim C4: a sealing attempt on a structured (PDF) record that fails
with an unrecoverable stamping error surfaces the failure (an error
detail is set), returns the workflow step to REVIEW, and leaves both the
forensic record and the certified-artifact reference exactly as they
were before the attempt. -/
theorem seal_failure_returns_review (s : AppState) (fd : ForensicData)
    (e : JsError) (hfd : s.fileData = some fd)
    (hty : fd.fileType = "application/pdf") :
    (handleCertification s (Except.error e)).step = AppStep.REVIEW ∧
    (handleCertification s (Except.error e)).fileData = s.fileData ∧
    (handleCertification s (Except.error e)).errorDetails.isSome = true ∧
    (handleCertification s (Except.error e)).certifiedPdfUrl = s.certifiedPdfUrl := by
  simp [handleCertification, hfd, hty]

/-- A concrete PDF-typed forensic record. -/
def fdPdf : ForensicData :=
  { fileName := "e.pdf", fileSize := 9, fileType := "application/pdf",
    lastModified := 0, hashSHA256 := "aa", hashSHA512 := "bb",
    timestamp := "t", originalBuffer := [1, 2], metadata := [] }

/-- A REVIEW-stage session holding the concrete PDF record. -/
def s4 : AppState := { initState with step := AppStep.REVIEW, fileData := some fdPdf }

theorem seal_failure_returns_review_witness :
    (handleCertification s4 (Except.error e0)).step = AppStep.REVIEW ∧
    (handleCertification s4 (Except.error e0)).fileData = s4.fileData ∧
    (handleCertification s4 (Except.error e0)).errorDetails.isSome = true ∧
    (handleCertification s4 (Except.error e0)).certifiedPdfUrl = s4.certifiedPdfUrl :=
  seal_failure_returns_review s4 fdPdf e0 rfl rfl

/-- Claim C6: sealing a record of any non-structured (non-PDF) type
succeeds as a byte-level no-op — the certified artifact holds exactly
the original input bytes — and the workflow still advances to
CERTIFIED. -/
theorem seal_non_pdf_passthrough (s : AppState) (fd : ForensicData)
    (stampR : Except JsError (List Nat)) (hfd : s.fileData = some fd)
    (hty : fd.fileType ≠ "application/pdf") :
    (handleCertification s stampR).certifiedPdfUrl = some fd.originalBuffer ∧
    (handleCertification s stampR).step = AppStep.CERTIFIED := by
  simp [handleCertification, hfd, hty]

/-- A concrete plain-text forensic record. -/
def fdTxt : ForensicData :=
  { fileName := "e.txt", fileSize := 4, fileType := "text/plain",
    lastModified := 0, hashSHA256 := "aa", hashSHA512 := "bb",
    timestamp := "t", originalBuffer := [10, 20, 30], metadata := [] }

/-- A REVIEW-stage session holding the concrete text record. -/
def s6 : AppState := { initState with step := AppStep.REVIEW, fileData := some fdTxt }

theorem seal_non_pdf_passthrough_witness :
    (handleCertification s6 (Except.error e0)).certifiedPdfUrl =
      some fdTxt.originalBuffer ∧
    (handleCertification s6 (Except.error e0)).step = AppStep.CERTIFIED :=
  seal_non_pdf_passthrough s6 fdTxt (Except.error e0) rfl (by decide)

/-- Claim C3: the metadata extractor is a total function (so it never
propagates a failure to its caller), and whenever the structured-document
(PDF) parse fails it still returns exactly the system-derived attributes
followed by the single diagnostic attribute — a six-entry map. -/
theorem extract_absorbs_parse_failure (file : FileDesc)
    (hty : file.type = "application/pdf") :
    extractMetadata file (Except.error ()) =
      systemAttributes file ++
        [("PDF Analysis", "Encrypted or Corrupted Structure")] ∧
    (extractMetadata file (Except.error ())).length = 6 := by
  have himg : jsStartsWith "application/pdf" "image/" = false := by decide
  have h1 : extractMetadata file (Except.error ()) =
      systemAttributes file ++
        [("PDF Analysis", "Encrypted or Corrupted Structure")] := by
    simp [extractMetadata, hty, himg]
  refine ⟨h1, ?_⟩
  rw [h1]
  simp [systemAttributes]

/-- A concrete PDF-typed input file. -/
def pdfFile : FileDesc :=
  { name := "contract.pdf", size := 2048, type := "application/pdf",
    lastModified := 7 }

theorem extract_absorbs_parse_failure_witness :
    extractMetadata pdfFile (Except.error ()) =
      systemAttributes pdfFile ++
        [("PDF Analysis", "Encrypted or Corrupted Structure")] ∧
    (extractMetadata pdfFile (Except.error ())).length = 6 :=
  extract_absorbs_parse_failure pdfFile rfl

/-- Claim C7: the viewer's classification partitions any attribute map by
exact key membership in the fixed seven-key taxonomy: an entry lands in
the Sensitive list iff its key is in SENSITIVE_KEYS (a condition on the
key alone, never the value), in the General list iff it is not, the two
parts cover the map exactly, and every classified entry is an unaltered
entry of the original map. -/
theorem classification_partitions_by_key (m : List (String × String))
    (p : String × String) (hp : p ∈ m) :
    (p ∈ sensitiveData m ↔ SENSITIVE_KEYS.contains p.1 = true) ∧
    (p ∈ generalData m ↔ ¬ SENSITIVE_KEYS.contains p.1 = true) ∧
    (sensitiveData m).length + (generalData m).length = m.length ∧
    (∀ q : String × String, q ∈ sensitiveData m → q ∈ m) ∧
    (∀ q : String × String, q ∈ generalData m → q ∈ m) := by
  refine ⟨?_, ?_, ?_, ?_, ?_⟩
  · simp [sensitiveData, List.mem_filter, hp]
  · simp [generalData, List.mem_filter, hp]
  · have h := List.length_eq_length_filter_add
      (l := m) (fun kv : String × String => SENSITIVE_KEYS.contains kv.1)
    simpa [sensitiveData, generalData] using h.symm
  · intro q hq
    exact List.mem_of_mem_filter hq
  · intro q hq
    exact List.mem_of_mem_filter hq

theorem classification_partitions_by_key_witness :
    (("PDF Author", "J. Doe") ∈
        sensitiveData [("PDF Author", "J. Doe"), ("File Name", "x")] ↔
      SENSITIVE_KEYS.contains "PDF Author" = true) ∧
    (("PDF Author", "J. Doe") ∈
        generalData [("PDF Author", "J. Doe"), ("File Name", "x")] ↔
      ¬ SENSITIVE_KEYS.contains "PDF Author" = true) ∧
    (sensitiveData [("PDF Author", "J. Doe"), ("File Name", "x")]).length +
        (generalData [("PDF Author", "J. Doe"), ("File Name", "x")]).length = 2 ∧
    (∀ q : String × String,
      q ∈ sensitiveData [("PDF Author", "J. Doe"), ("File Name", "x")] →
        q ∈ [("PDF Author", "J. Doe"), ("File Name", "x")]) ∧
    (∀ q : String × String,
      q ∈ generalData [("PDF Author", "J. Doe"), ("File Name", "x")] →
        q ∈ [("PDF Author", "J. Doe"), ("File Name", "x")]) :=
  classification_partitions_by_key
    [("PDF Author", "J. Doe"), ("File Name", "x")] ("PDF Author", "J. Doe")
    (by decide)

@[simp]
theorem fileData_handleCertification (s : AppState)
    (stampR : Except JsError (List Nat)) :
    (handleCertification s stampR).fileData = s.fileData := by
  unfold handleCertification
  split <;> try rfl
  split
  · split <;> simp_all
  · simp_all

@[simp]
theorem fileData_handleWalletConnect (s : AppState)
    (r : Except JsError (String × Nat × Nat)) :
    (handleWalletConnect s r).fileData = s.fileData := by
  unfold handleWalletConnect
  cases r with
  | ok v => obtain ⟨addr, chainId, signer⟩ := v; rfl
  | error e => rfl

@[simp]
theorem fileData_handleMinting (s : AppState)
    (connectR : Except JsError (String × Nat × Nat))
    (mintR : Except JsError String) :
    (handleMinting s connectR mintR).fileData = s.fileData := by
  unfold handleMinting
  dsimp only
  by_cases hb : (!s.wallet.isConnected || s.walletSigner.isNone) = true
  · rw [if_pos hb]; simp
  · rw [if_neg hb]
    cases hf : s.fileData with
    | none => simp
    | some fd => cases mintR <;> simp

@[simp]
theorem fileData_downloadAuditReport (s : AppState)
    (r : Except JsError (List Nat)) :
    (downloadAuditReport s r).fileData = s.fileData := by
  unfold downloadAuditReport
  split <;> try rfl
  split <;> simp_all

@[simp]
theorem fileData_downloadWhitePaper (s : AppState)
    (r : Except JsError (List Nat)) :
    (downloadWhitePaper s r).fileData = s.fileData := by
  unfold downloadWhitePaper
  split <;> try rfl
  split <;> simp_all

@[simp]
theorem fileData_handleGenerateSpecializedReport (s : AppState)
    (r : Except JsError (List Nat)) :
    (handleGenerateSpecializedReport s r).fileData = s.fileData := by
  unfold handleGenerateSpecializedReport
  dsimp only
  cases hf : s.fileData with
  | none => simp
  | some fd => cases r <;> simp

/-- processFile either leaves the record untouched (oversize rejection or
hashing failure) or, exactly on a hashing success, installs the record
assembled from that success. -/
theorem fileData_processFile (s : AppState) (file : FileDesc)
    (hashR : Except JsError HashOutput) (pdfParse : Except Unit PdfInfo)
    (nowUTC : String) :
    (processFile s file hashR pdfParse nowUTC).fileData = s.fileData ∨
    (∃ h, hashR = Except.ok h ∧
      (processFile s file hashR pdfParse nowUTC).fileData =
        some (mkForensicData file h (extractMetadata file pdfParse) nowUTC)) := by
  unfold processFile
  split
  · left; rfl
  · cases hashR with
    | error e => left; rfl
    | ok h => right; exact ⟨h, rfl, rfl⟩

/-- One well-formed session event preserves the record invariant. -/
theorem recordOK_dispatch (s : AppState) (e : Event) (he : eventOK e)
    (hs : recordOK s) : recordOK (dispatch s e) := by
  cases e with
  | upload file hashR pdfParse nowUTC =>
    dsimp only [dispatch]
    split
    · rcases fileData_processFile s file hashR pdfParse nowUTC with hcase | ⟨h, hok, hdata⟩
      · intro fd hfd; rw [hcase] at hfd; exact hs fd hfd
      · intro fd hfd
        rw [hdata] at hfd
        cases hfd
        subst hok
        have hok2 : hashOutputOK h = true := he
        rw [hashOutputOK, Bool.and_eq_true] at hok2
        exact ⟨hok2.1, hok2.2⟩
    · exact hs
  | certify stampR =>
    dsimp only [dispatch]
    split
    · intro fd hfd; rw [fileData_handleCertification] at hfd; exact hs fd hfd
    · exact hs
  | mint connectR mintR =>
    dsimp only [dispatch]
    split
    · intro fd hfd; rw [fileData_handleMinting] at hfd; exact hs fd hfd
    · exact hs
  | connect r =>
    intro fd hfd
    rw [dispatch, fileData_handleWalletConnect] at hfd
    exact hs fd hfd
  | doReset =>
    dsimp only [dispatch]
    split
    · intro fd hfd; cases hfd
    · exact hs
  | setMetadataModal b => intro fd hfd; exact hs fd hfd
  | setQRModal b => intro fd hfd; exact hs fd hfd
  | openReport ty =>
    dsimp only [dispatch]
    split
    · intro fd hfd; exact hs fd hfd
    · exact hs
  | submitReport r =>
    dsimp only [dispatch]
    split
    · intro fd hfd
      rw [fileData_handleGenerateSpecializedReport] at hfd
      exact hs fd hfd
    · exact hs
  | auditReport r =>
    dsimp only [dispatch]
    split
    · intro fd hfd; rw [fileData_downloadAuditReport] at hfd; exact hs fd hfd
    · exact hs
  | whitePaper r =>
    dsimp only [dispatch]
    split
    · intro fd hfd; rw [fileData_downloadWhitePaper] at hfd; exact hs fd hfd
    · exact hs

/-- Claim C2: in every session state reachable from the initial state by
well-formed events (hashing successes honour the hash-engine output
contract), the forensic record is either absent or carries both the
SHA-256 and the SHA-512 digest, each well-formed for its width — no
reachable state, across any transition including failed analysis, shows
one digest without the other. -/
theorem record_digests_set_together (es : List Event)
    (hok : ∀ e ∈ es, eventOK e) :
    recordOK (runEvents initState es) := by
  have hgen : ∀ (es : List Event) (s : AppState), (∀ e ∈ es, eventOK e) →
      recordOK s → recordOK (runEvents s es) := by
    intro es
    induction es with
    | nil => intro s _ hs; exact hs
    | cons e tl ih =>
      intro s hall hs
      exact ih (dispatch s e)
        (fun x hx => hall x (List.mem_cons_of_mem e hx))
        (recordOK_dispatch s e (hall e (List.mem_cons_self e tl)) hs)
  refine hgen es initState hok ?_
  intro fd hfd
  cases hfd

/-- The 10 KB scenario's concrete hashing success: a 64-character and a
128-character lowercase hex digest over a three-byte buffer. -/
def h10k : HashOutput :=
  { sha256 := String.mk (List.replicate 64 'a'),
    sha512 := String.mk (List.replicate 128 'b'),
    arrayBuffer := [1, 2, 3] }

set_option maxRecDepth 100000 in
theorem record_digests_set_together_witness :
    recordOK (runEvents initState
      [Event.upload txtFile (Except.ok h10k) (Except.error ()) "now"]) :=
  record_digests_set_together
    [Event.upload txtFile (Except.ok h10k) (Except.error ()) "now"]
    (by intro e hexp
        simp only [List.mem_singleton] at hexp
        subst hexp
        show hashOutputOK h10k = true
        rfl)

/-- First-match choice of two optional results, mirroring association-list
lookup through an append. -/
def oor {α : Type} : Option α → Option α → Option α
  | some v, _ => some v
  | none, b => b

theorem oor_none_right {α : Type} (a : Option α) : oor a none = a := by
  cases a <;> rfl

theorem oor_none_left {α : Type} (b : Option α) : oor none b = b := rfl

theorem oor_some {α : Type} (v : α) (b : Option α) : oor (some v) b = some v := rfl

theorem lookup_append (k : String) (l1 l2 : List (String × String)) :
    List.lookup k (l1 ++ l2) = oor (List.lookup k l1) (List.lookup k l2) := by
  induction l1 with
  | nil => simp [List.lookup, oor]
  | cons a rest ih =>
    obtain ⟨a1, a2⟩ := a
    show List.lookup k ((a1, a2) :: (rest ++ l2)) = _
    rw [List.lookup]
    cases hb : (k == a1) <;> simp [List.lookup, hb, ih, oor]

theorem lookup_cons (k a v : String) (rest : List (String × String)) :
    List.lookup k ((a, v) :: rest) = cond (k == a) (some v) (List.lookup k rest) := by
  rw [List.lookup]
  cases hb : (k == a) <;> simp [hb]

theorem lookup_optEntry (k k' : String) (o : Option String) :
    List.lookup k (optEntry k' o) = cond (k == k') (truthy o) none := by
  unfold optEntry
  cases o with
  | none => cases hb : (k == k') <;> simp [truthy, List.lookup, hb]
  | some t =>
    by_cases ht : t = ""
    · cases hb : (k == k') <;> simp [truthy, ht, List.lookup, hb]
    · cases hb : (k == k') <;> simp [truthy, ht, List.lookup, hb]

theorem lookup_dateEntry (k k' : String) (o : Option Nat) :
    List.lookup k (dateEntry k' o) =
      cond (k == k') (o.map toUTCString) none := by
  unfold dateEntry
  cases o with
  | none => cases hb : (k == k') <;> simp [List.lookup, hb]
  | some d => cases hb : (k == k') <;> simp [List.lookup, hb]

theorem truthy_ne_some_empty (o : Option String) : truthy o ≠ some "" := by
  cases o with
  | none => simp [truthy]
  | some t =>
    by_cases ht : t = "" <;> simp [truthy, ht]

/-- Claim C8: on a successful PDF parse, each optional document field is
looked up in the returned attribute map to exactly the truthy (present
and non-empty) value of the corresponding getter — absent or empty
fields yield no entry at all, and no optional field is ever recorded as
an empty string; the page count, always carried by a parsed document, is
always recorded. -/
theorem pdf_fields_iff_present_nonempty (file : FileDesc) (d : PdfInfo)
    (hty : file.type = "application/pdf") :
    ((extractMetadata file (Except.ok d)).lookup "PDF Title" = truthy d.title) ∧
    ((extractMetadata file (Except.ok d)).lookup "PDF Author" = truthy d.author) ∧
    ((extractMetadata file (Except.ok d)).lookup "PDF Subject" = truthy d.subject) ∧
    ((extractMetadata file (Except.ok d)).lookup "PDF Creator tool" = truthy d.creator) ∧
    ((extractMetadata file (Except.ok d)).lookup "PDF Producer" = truthy d.producer) ∧
    ((extractMetadata file (Except.ok d)).lookup "PDF Creation Date" =
      d.creationDate.map toUTCString) ∧
    ((extractMetadata file (Except.ok d)).lookup "PDF Mod Date" =
      d.modDate.map toUTCString) ∧
    ((extractMetadata file (Except.ok d)).lookup "Page Count" =
      some (toString d.pageCount)) ∧
    ((extractMetadata file (Except.ok d)).lookup "PDF Title" ≠ some "") ∧
    ((extractMetadata file (Except.ok d)).lookup "PDF Author" ≠ some "") ∧
    ((extractMetadata file (Except.ok d)).lookup "PDF Subject" ≠ some "") ∧
    ((extractMetadata file (Except.ok d)).lookup "PDF Creator tool" ≠ some "") ∧
    ((extractMetadata file (Except.ok d)).lookup "PDF Producer" ≠ some "") := by
  have himg : jsStartsWith "application/pdf" "image/" = false := by decide
  have hm : extractMetadata file (Except.ok d) =
      systemAttributes file ++ pdfFields d := by
    simp [extractMetadata, hty, himg]
  rw [hm]
  refine ⟨?_, ?_, ?_, ?_, ?_, ?_, ?_, ?_, ?_, ?_, ?_, ?_, ?_⟩ <;>
    simp [systemAttributes, pdfFields, lookup_cons, lookup_append,
      lookup_optEntry, lookup_dateEntry, oor_some, oor_none_left, oor_none_right,
      truthy_ne_some_empty]

/-- A concrete parse result with present, empty and absent fields. -/
def d0 : PdfInfo :=
  { title := some "Treaty", author := some "", subject := none,
    creator := some "LaTeX", producer := none, creationDate := some 12,
    modDate := none, pageCount := 3 }

theorem pdf_fields_iff_present_nonempty_witness :
    ((extractMetadata pdfFile (Except.ok d0)).lookup "PDF Title" = truthy d0.title) ∧
    ((extractMetadata pdfFile (Except.ok d0)).lookup "PDF Author" = truthy d0.author) ∧
    ((extractMetadata pdfFile (Except.ok d0)).lookup "PDF Subject" = truthy d0.subject) ∧
    ((extractMetadata pdfFile (Except.ok d0)).lookup "PDF Creator tool" = truthy d0.creator) ∧
    ((extractMetadata pdfFile (Except.ok d0)).lookup "PDF Producer" = truthy d0.producer) ∧
    ((extractMetadata pdfFile (Except.ok d0)).lookup "PDF Creation Date" =
      d0.creationDate.map toUTCString) ∧
    ((extractMetadata pdfFile (Except.ok d0)).lookup "PDF Mod Date" =
      d0.modDate.map toUTCString) ∧
    ((extractMetadata pdfFile (Except.ok d0)).lookup "Page Count" =
      some (toString d0.pageCount)) ∧
    ((extractMetadata pdfFile (Except.ok d0)).lookup "PDF Title" ≠ some "") ∧
    ((extractMetadata pdfFile (Except.ok d0)).lookup "PDF Author" ≠ some "") ∧
    ((extractMetadata pdfFile (Except.ok d0)).lookup "PDF Subject" ≠ some "") ∧
    ((extractMetadata pdfFile (Except.ok d0)).lookup "PDF Creator tool" ≠ some "") ∧
    ((extractMetadata pdfFile (Except.ok d0)).lookup "PDF Producer" ≠ some "") :=
  pdf_fields_iff_present_nonempty pdfFile d0 rfl

/-- Claim C9, counterexample: submitting the 10 KB plain-text file yields
a forensic record whose attribute map has five system entries (File
Name, File Size, MIME Type, Last Modified, Timestamp (Unix)), not the
four the claim states. -/
theorem plain_text_scenario_counterexample :
    (runEvents initState
        [Event.upload txtFile (Except.ok h10k) (Except.error ()) "now"]).fileData.map
      (fun fd => fd.metadata.length) = some 5 ∧ (5 : Nat) ≠ 4 :=
  ⟨rfl, by decide⟩

set_option maxRecDepth 100000 in
/-- Claim C9 as amended: submitting the 10 KB plain-text file carries the
session from IDLE (through the transient ANALYZING step processFile sets
before hashing resolves) to REVIEW, and installs a ForensicRecord
holding both well-formed digests and exactly five system attributes —
the last-modified timestamp contributes two entries — none of which is
classified Sensitive. -/
theorem plain_text_scenario_amended :
    initState.step = AppStep.IDLE ∧
    (runEvents initState
      [Event.upload txtFile (Except.ok h10k) (Except.error ()) "now"]).step =
        AppStep.REVIEW ∧
    (runEvents initState
      [Event.upload txtFile (Except.ok h10k) (Except.error ()) "now"]).fileData =
        some (mkForensicData txtFile h10k
          (extractMetadata txtFile (Except.error ())) "now") ∧
    (extractMetadata txtFile (Except.error ())).length = 5 ∧
    sensitiveData (extractMetadata txtFile (Except.error ())) = [] ∧
    hexDigestB h10k.sha256 64 = true ∧
    hexDigestB h10k.sha512 128 = true :=
  ⟨rfl, rfl, rfl, rfl, rfl, rfl, rfl⟩

end LexSentinel
